import Mathlib

/-!
Verification development for the sdk-dslink-python core: a shallow
embedding of the persistence layer and the subscription/stream registries
of src/dslink/DSLink.py, and of the connect/backoff loop of
src/dslink/Connection.py, together with theorems settling the behavioural
claims about them.
-/

set_option autoImplicit false

namespace DSLink

/-- In-memory node tree produced by Node.from_json and handed back by
load_nodes. The claims under verification only move whole trees around and
compare them, so the tree is abstracted to a tagged value. -/
structure NodeTree where
  val : Nat
deriving DecidableEq

/-- Content of a nodes file on disk: either valid serialized JSON of a tree
(what json.dumps of Node.to_json writes), or corrupt bytes, tagged so that
distinct corrupt contents stay distinguishable. -/
inductive FileContent where
  | parseable (t : NodeTree)
  | corrupt (tag : Nat)
deriving DecidableEq

/-- Reading and deserializing a file content, i.e. json.load followed by
Node.from_json: succeeds exactly on serialized trees. -/
def parse : FileContent → Option NodeTree
  | FileContent.parseable t => some t
  | FileContent.corrupt _ => none

/-- The on-disk state seen by persistence: the primary file at
config.nodes_path and the backup at config.nodes_path + ".bak".
A field being none means that file does not exist (os.path.exists is
false). -/
structure FS where
  primary : Option FileContent
  backup : Option FileContent
deriving DecidableEq

/-- DSLink.load_nodes from src/dslink/DSLink.py, lines 73-102: if the
primary exists, try to parse it; on a parse failure, if a backup exists,
delete the primary, rename the backup onto the primary path and retry the
parse once; any remaining failure falls back to the default tree. The
function also returns the resulting on-disk state, since the recovery
branch mutates it (os.remove and os.rename). Totality of this definition
reflects that the source catches every exception and never raises to the
caller. -/
def load_nodes (defaultTree : NodeTree) (fs : FS) : NodeTree × FS :=
  match fs.primary with
  | some c =>
    match parse c with
    | some t => (t, fs)
    | none =>
      match fs.backup with
      | some b =>
        match parse b with
        | some t => (t, { primary := some b, backup := none })
        | none => (defaultTree, { primary := some b, backup := none })
      | none => (defaultTree, fs)
  | none => (defaultTree, fs)

/-- The mutable state of the link that save_nodes touches: the dirty flag
self.nodes_changed, the tree self.super_root, and the two files on disk. -/
structure LinkState where
  nodes_changed : Bool
  super_root : NodeTree
  fs : FS
deriving DecidableEq

/-- One observable file operation performed by a save tick, in program
order: os.remove of the backup, os.rename of the primary to the backup,
the write of the fresh primary, flush, os.fsync, and the final file
close. -/
inductive FileOp where
  | removeBak
  | renameToBak
  | write (t : NodeTree)
  | flush
  | fsync
  | close
deriving DecidableEq

/-- DSLink.save_nodes from src/dslink/DSLink.py, lines 112-126: a no-op
unless the dirty flag is set; otherwise delete the backup if it exists,
rename the primary (if present) to the backup, write the serialized tree
to a fresh primary file, flush and fsync it, close it, and clear the dirty
flag. Returns the new state and the trace of file operations in the order
the source performs them. -/
def save_nodes (s : LinkState) : LinkState × List FileOp :=
  if s.nodes_changed then
    let step1 :=
      match s.fs.backup with
      | some _ => (({ s.fs with backup := none } : FS), [FileOp.removeBak])
      | none => (s.fs, ([] : List FileOp))
    let step2 :=
      match step1.1.primary with
      | some c => (({ primary := none, backup := some c } : FS), [FileOp.renameToBak])
      | none => (step1.1, ([] : List FileOp))
    let fs3 : FS := { step2.1 with primary := some (FileContent.parseable s.super_root) }
    ({ s with fs := fs3, nodes_changed := false },
      step1.2 ++ step2.2 ++ [FileOp.write s.super_root, FileOp.flush, FileOp.fsync, FileOp.close])
  else (s, [])

/-- save_nodes on a tick whose write of the fresh primary file raises (for
example a disk error in open, write, flush or fsync) after the rotation
steps have run. Except.error carries the state at the moment the exception
escapes: the assignment self.nodes_changed = False is the last statement of
the source, so the dirty flag is still set. -/
def save_nodes_failing_write (s : LinkState) : Except LinkState (LinkState × List FileOp) :=
  if s.nodes_changed then
    let step1 :=
      match s.fs.backup with
      | some _ => (({ s.fs with backup := none } : FS), [FileOp.removeBak])
      | none => (s.fs, ([] : List FileOp))
    let step2 :=
      match step1.1.primary with
      | some c => (({ primary := none, backup := some c } : FS), [FileOp.renameToBak])
      | none => (step1.1, ([] : List FileOp))
    Except.error { s with fs := step2.1 }
  else Except.ok (s, [])

/-- DSLink.save_timer from src/dslink/DSLink.py, lines 104-110: it calls
save_nodes and only afterwards schedules the next tick with
reactor.callLater(5, self.save_timer). The Nat in the ok result is the
delay, in seconds, of the next scheduled tick. If save_nodes raises, the
exception propagates out of save_timer before the reschedule line runs, so
no next tick is scheduled: that is the Except.error case. The writeFails
flag selects whether the file write raises on this tick. -/
def save_timer (writeFails : Bool) (s : LinkState) :
    Except LinkState ((LinkState × List FileOp) × Nat) :=
  if writeFails then
    match save_nodes_failing_write s with
    | Except.ok res => Except.ok (res, 5)
    | Except.error s1 => Except.error s1
  else Except.ok (save_nodes s, 5)

/-- Outcome of one iteration of the while loop in Connection.connect
(src/dslink/Connection.py, lines 19-37): the handshake returns a falsy
result, the handshake succeeds but websocket.connect returns a falsy
result, some statement of the attempt raises an exception, or both steps
succeed. -/
inductive AttemptOutcome where
  | handshakeFalse
  | wsFalse
  | raises
  | success
deriving DecidableEq

/-- Observable events of the connect loop: the warning log naming the
current delay, the await asyncio.sleep of that delay, the error log of a
caught exception, and the final Connected log after the loop breaks. -/
inductive ConnEvent where
  | logWarning (secs : Nat)
  | sleep (secs : Nat)
  | logError
  | connected
deriving DecidableEq

/-- The delay update at the top of each loop iteration of
Connection.connect: if self.delay < 60 then self.delay = self.delay + 1. -/
def bump (delay : Nat) : Nat :=
  if delay < 60 then delay + 1 else delay

/-- One iteration of the while loop in Connection.connect: bump the delay,
then run the attempt. Returns the delay after the iteration, the events
the iteration emits, and whether the loop breaks. A falsy handshake or
transport result logs the warning and sleeps the current delay; an
exception jumps from inside the try block to the except handler, which
only logs, so the sleep statement is skipped. -/
def connectStep (delay : Nat) (o : AttemptOutcome) : Nat × List ConnEvent × Bool :=
  let d := bump delay
  match o with
  | AttemptOutcome.success => (d, [], true)
  | AttemptOutcome.handshakeFalse => (d, [ConnEvent.logWarning d, ConnEvent.sleep d], false)
  | AttemptOutcome.wsFalse => (d, [ConnEvent.logWarning d, ConnEvent.sleep d], false)
  | AttemptOutcome.raises => (d, [ConnEvent.logError], false)

/-- Connection.connect run over a finite schedule of attempt outcomes,
starting from a given value of self.delay. Returns none when the schedule
is exhausted without a success (the loop is still running), and otherwise
the final value of self.delay together with the emitted event trace. After
the break the source logs Connected and sets self.delay = 0. -/
def connect (delay : Nat) : List AttemptOutcome → Option (Nat × List ConnEvent)
  | [] => none
  | o :: rest =>
    let s := connectStep delay o
    if s.2.2 then
      some (0, s.2.1 ++ [ConnEvent.connected])
    else
      match connect s.1 rest with
      | some r => some (r.1, s.2.1 ++ r.2)
      | none => none

/-- The durations of the sleep events of a trace, in order. -/
def sleepsOf (tr : List ConnEvent) : List Nat :=
  tr.filterMap (fun e =>
    match e with
    | ConnEvent.sleep s => some s
    | _ => none)

/-- Whether a loop iteration with this outcome reaches the sleep
statement: a falsy handshake or transport result does, an exception does
not (the sleep sits inside the try block and is skipped), and a success
breaks out. -/
def sleepy (o : AttemptOutcome) : Bool :=
  match o with
  | AttemptOutcome.handshakeFalse => true
  | AttemptOutcome.wsFalse => true
  | _ => false

/-- Lookup in a Python dict modelled as an association list. -/
def dictLookup {α : Type} (k : Nat) : List (Nat × α) → Option α
  | [] => none
  | p :: rest => if p.1 = k then some p.2 else dictLookup k rest

/-- Deletion of a key from a Python dict modelled as an association
list. -/
def dictErase {α : Type} (k : Nat) : List (Nat × α) → List (Nat × α)
  | [] => []
  | p :: rest => if p.1 = k then dictErase k rest else p :: dictErase k rest

/-- Assignment d[k] = v on a Python dict modelled as an association list:
any previous binding of k is replaced. -/
def dictInsert {α : Type} (k : Nat) (v : α) (d : List (Nat × α)) : List (Nat × α) :=
  dictErase k d ++ [(k, v)]

/-- The per-node collection (subscriber set or stream list) of the node
with the given id; a node not yet in the table has the empty collection. -/
def getList (n : Nat) (m : List (Nat × List Nat)) : List Nat :=
  (dictLookup n m).getD []

/-- Modelled from the spec: Node.add_subscriber (dslink/Node.py is not
under src/). Per the spec data model a Node carries subscribers, a set of
subscription identifiers, so adding registers the id on the node's
subscriber set, idempotently. -/
def addSubscriber (n : Nat) (sid : Nat) (m : List (Nat × List Nat)) : List (Nat × List Nat) :=
  if sid ∈ getList n m then m else dictInsert n (getList n m ++ [sid]) m

/-- Modelled from the spec: Node.remove_subscriber (dslink/Node.py is not
under src/). Per the spec, close deregisters the id from the owning node's
subscriber set. -/
def removeSubscriber (n : Nat) (sid : Nat) (m : List (Nat × List Nat)) : List (Nat × List Nat) :=
  dictInsert n ((getList n m).filter (fun x => x ≠ sid)) m

/-- Removal of the first occurrence of an element, the semantics of the
Python list.remove call used on a node's stream list. -/
def listRemoveFirst (x : Nat) : List Nat → List Nat
  | [] => []
  | y :: ys => if y = x then ys else y :: listRemoveFirst x ys

/-- State of LocalSubscriptionManager (src/dslink/DSLink.py, lines
209-238) together with the subscriber sets of the nodes it manages:
subscriptions is the dict self.subscriptions mapping a sid to a node, and
subscribers maps each node id to that node's subscriber set. -/
structure SubState where
  subscriptions : List (Nat × Nat)
  subscribers : List (Nat × List Nat)
deriving DecidableEq

/-- Debug-level log lines emitted by the registries on a close of an
unknown identifier. -/
inductive LogMsg where
  | debugUnknownSid (sid : Nat)
  | debugUnknownRid (rid : Nat)
deriving DecidableEq

/-- LocalSubscriptionManager.subscribe: self.subscriptions[sid] = node,
then self.subscriptions[sid].add_subscriber(sid); the second lookup
returns the node just stored. -/
def subscribe (node sid : Nat) (st : SubState) : SubState :=
  { subscriptions := dictInsert sid node st.subscriptions,
    subscribers := addSubscriber node sid st.subscribers }

/-- LocalSubscriptionManager.unsubscribe: look up the node, deregister the
sid from it and delete the mapping; a KeyError on an unknown sid is caught
and logged at debug level, leaving the state unchanged. -/
def unsubscribe (sid : Nat) (st : SubState) : SubState × List LogMsg :=
  match dictLookup sid st.subscriptions with
  | some node =>
    ({ subscriptions := dictErase sid st.subscriptions,
       subscribers := removeSubscriber node sid st.subscribers }, [])
  | none => (st, [LogMsg.debugUnknownSid sid])

/-- State of StreamManager (src/dslink/DSLink.py, lines 241-270) together
with the stream lists of the nodes it manages: streams is the dict
self.streams mapping a rid to a node, and nodeStreams maps each node id to
that node's streams list, a list because the source appends to it. -/
structure StreamState where
  streams : List (Nat × Nat)
  nodeStreams : List (Nat × List Nat)
deriving DecidableEq

/-- StreamManager.open_stream: self.streams[rid] = node, then
self.streams[rid].streams.append(rid). -/
def open_stream (node rid : Nat) (st : StreamState) : StreamState :=
  { streams := dictInsert rid node st.streams,
    nodeStreams := dictInsert node (getList node st.nodeStreams ++ [rid]) st.nodeStreams }

/-- StreamManager.close_stream: self.streams[rid].streams.remove(rid),
then del self.streams[rid]; a KeyError on an unknown rid is caught and
logged at debug level, leaving the state unchanged. -/
def close_stream (rid : Nat) (st : StreamState) : StreamState × List LogMsg :=
  match dictLookup rid st.streams with
  | some node =>
    ({ streams := dictErase rid st.streams,
       nodeStreams := dictInsert node (listRemoveFirst rid (getList node st.nodeStreams)) st.nodeStreams }, [])
  | none => (st, [LogMsg.debugUnknownRid rid])

/-- Number of primary-file writes in a trace of file operations. -/
def countWrites (ops : List FileOp) : Nat :=
  (ops.filter (fun op =>
    match op with
    | FileOp.write _ => true
    | _ => false)).length

/-- The registry invariant that every identifier sitting in some node's
subscriber set is still a key of the manager's subscriptions dict. -/
def subsInvariant (st : SubState) : Prop :=
  ∀ n sid, sid ∈ getList n st.subscribers → dictLookup sid st.subscriptions ≠ none

/-- A concrete dirty link state with both a primary and a backup file,
used to instantiate theorems at concrete inputs. -/
def sampleDirtyBoth : LinkState :=
  { nodes_changed := true
    super_root := ⟨1⟩
    fs := { primary := some (FileContent.parseable ⟨0⟩)
            backup := some (FileContent.corrupt 3) } }

/-- A concrete dirty link state with a primary file and no backup, used to
instantiate theorems at concrete inputs. -/
def sampleDirtyNoBak : LinkState :=
  { nodes_changed := true
    super_root := ⟨1⟩
    fs := { primary := some (FileContent.parseable ⟨0⟩)
            backup := none } }

/-! Helper lemmas about the dict model. -/

theorem dictLookup_erase_self {α : Type} (k : Nat) (d : List (Nat × α)) :
    dictLookup k (dictErase k d) = none := by
  induction d with
  | nil => rfl
  | cons p rest ih =>
    by_cases h : p.1 = k <;> simp [dictErase, dictLookup, h, ih]

theorem dictLookup_append {α : Type} (k : Nat) (d1 d2 : List (Nat × α))
    (h : dictLookup k d1 = none) :
    dictLookup k (d1 ++ d2) = dictLookup k d2 := by
  induction d1 with
  | nil => rfl
  | cons p rest ih =>
    by_cases hp : p.1 = k
    · simp [dictLookup, hp] at h
    · simp [dictLookup, hp] at h ⊢
      exact ih h

theorem dictLookup_insert_self {α : Type} (k : Nat) (v : α) (d : List (Nat × α)) :
    dictLookup k (dictInsert k v d) = some v := by
  rw [dictInsert, dictLookup_append k _ _ (dictLookup_erase_self k d)]
  simp [dictLookup]

theorem dictLookup_erase_other {α : Type} (k q : Nat) (d : List (Nat × α)) (h : q ≠ k) :
    dictLookup q (dictErase k d) = dictLookup q d := by
  induction d with
  | nil => rfl
  | cons p rest ih =>
    by_cases hp : p.1 = k
    · simp [dictErase, dictLookup, hp, Ne.symm h, h, ih]
    · by_cases hq : p.1 = q <;> simp [dictErase, dictLookup, hp, hq, Ne.symm h, h, ih]

theorem dictLookup_insert_other {α : Type} (k q : Nat) (v : α) (d : List (Nat × α))
    (h : q ≠ k) :
    dictLookup q (dictInsert k v d) = dictLookup q d := by
  induction d with
  | nil => simp [dictInsert, dictErase, dictLookup, Ne.symm h]
  | cons p rest ih =>
    simp only [dictInsert] at ih ⊢
    by_cases hp : p.1 = k
    · simp [dictErase, dictLookup, hp, Ne.symm h, h, ih]
    · by_cases hq : p.1 = q <;> simp [dictErase, dictLookup, hp, hq, Ne.symm h, h, ih]

theorem getList_insert_self (n : Nat) (v : List Nat) (m : List (Nat × List Nat)) :
    getList n (dictInsert n v m) = v := by
  simp [getList, dictLookup_insert_self]

theorem getList_insert_other (n q : Nat) (v : List Nat) (m : List (Nat × List Nat))
    (h : q ≠ n) :
    getList q (dictInsert n v m) = getList q m := by
  simp [getList, dictLookup_insert_other n q v m h]

theorem getList_addSubscriber_other (n q sid : Nat) (m : List (Nat × List Nat))
    (h : q ≠ n) :
    getList q (addSubscriber n sid m) = getList q m := by
  unfold addSubscriber
  split
  · rfl
  · exact getList_insert_other n q _ m h

theorem getList_removeSubscriber_other (n q sid : Nat) (m : List (Nat × List Nat))
    (h : q ≠ n) :
    getList q (removeSubscriber n sid m) = getList q m := by
  unfold removeSubscriber
  exact getList_insert_other n q _ m h

theorem getList_removeSubscriber_self (n sid : Nat) (m : List (Nat × List Nat)) :
    getList n (removeSubscriber n sid m) = (getList n m).filter (fun x => x ≠ sid) := by
  unfold removeSubscriber
  exact getList_insert_self n _ m

theorem mem_getList_addSubscriber_self (n sid : Nat) (m : List (Nat × List Nat)) :
    sid ∈ getList n (addSubscriber n sid m) := by
  unfold addSubscriber
  split
  · assumption
  · rw [getList_insert_self]
    simp

/-- C1: load_nodes never raises to its caller (it is a total function of
the configuration and the on-disk state) and follows the fallback chain:
no primary file gives the default tree; a parseable primary gives exactly
its deserialized content; a corrupt primary with a backup deletes the
primary, renames the backup onto the primary path and returns the backup
content when that parse succeeds; if that retry also fails, or no backup
exists, the default tree is returned. -/
theorem load_nodes_recovery_chain (d : NodeTree) (fs : FS) :
    (fs.primary = none → load_nodes d fs = (d, fs)) ∧
    (∀ c t, fs.primary = some c → parse c = some t → load_nodes d fs = (t, fs)) ∧
    (∀ c b tb, fs.primary = some c → parse c = none → fs.backup = some b →
      parse b = some tb →
      load_nodes d fs = (tb, { primary := some b, backup := none })) ∧
    (∀ c, fs.primary = some c → parse c = none → fs.backup = none →
      load_nodes d fs = (d, fs)) ∧
    (∀ c b, fs.primary = some c → parse c = none → fs.backup = some b → parse b = none →
      (load_nodes d fs).1 = d) := by
  obtain ⟨p, bk⟩ := fs
  refine ⟨?_, ?_, ?_, ?_, ?_⟩
  · intro h
    simp only at h
    subst h
    rfl
  · intro c t h1 h2
    simp only at h1
    subst h1
    simp [load_nodes, h2]
  · intro c b tb h1 h2 h3 h4
    simp only at h1 h3
    subst h1
    subst h3
    simp [load_nodes, h2, h4]
  · intro c h1 h2 h3
    simp only at h1 h3
    subst h1
    subst h3
    simp [load_nodes, h2]
  · intro c b h1 h2 h3 h4
    simp only at h1 h3
    subst h1
    subst h3
    simp [load_nodes, h2, h4]

/-- Witness for C1: a corrupt primary next to a parseable backup makes
load_nodes return the backup content, with the backup renamed onto the
primary path. -/
theorem load_nodes_recovery_chain_witness :
    load_nodes ⟨0⟩ { primary := some (FileContent.corrupt 7),
                     backup := some (FileContent.parseable ⟨5⟩) } =
      (⟨5⟩, { primary := some (FileContent.parseable ⟨5⟩), backup := none }) :=
  (load_nodes_recovery_chain ⟨0⟩
      ⟨some (FileContent.corrupt 7), some (FileContent.parseable ⟨5⟩)⟩).2.2.1
    (FileContent.corrupt 7) (FileContent.parseable ⟨5⟩) ⟨5⟩ rfl rfl rfl rfl

/-- C10: when the primary fails to parse and a backup exists, load_nodes
mutates the disk before knowing whether recovery succeeds; if the backup
also fails to parse it returns the default tree while the original primary
content is gone, the backup file no longer exists, and the primary path
now holds the former backup content. -/
theorem load_nodes_failed_recovery_mutates (d : NodeTree) (fs : FS) (c b : FileContent)
    (h1 : fs.primary = some c) (h2 : parse c = none)
    (h3 : fs.backup = some b) (h4 : parse b = none) :
    load_nodes d fs = (d, { primary := some b, backup := none }) ∧
    (load_nodes d fs).2.backup = none ∧
    (load_nodes d fs).2.primary = some b ∧
    (load_nodes d fs).2 ≠ fs := by
  obtain ⟨p, bk⟩ := fs
  simp only at h1 h3
  subst h1
  subst h3
  refine ⟨?_, ?_, ?_, ?_⟩ <;> simp [load_nodes, h2, h4]

/-- Witness for C10: both files corrupt, with distinct contents, so the
final state visibly differs from the initial one. -/
theorem load_nodes_failed_recovery_mutates_witness :
    load_nodes ⟨0⟩ { primary := some (FileContent.corrupt 7),
                     backup := some (FileContent.corrupt 9) } =
      (⟨0⟩, { primary := some (FileContent.corrupt 9), backup := none }) ∧
    (load_nodes ⟨0⟩ { primary := some (FileContent.corrupt 7),
                      backup := some (FileContent.corrupt 9) }).2.backup = none ∧
    (load_nodes ⟨0⟩ { primary := some (FileContent.corrupt 7),
                      backup := some (FileContent.corrupt 9) }).2.primary =
      some (FileContent.corrupt 9) ∧
    (load_nodes ⟨0⟩ { primary := some (FileContent.corrupt 7),
                      backup := some (FileContent.corrupt 9) }).2 ≠
      { primary := some (FileContent.corrupt 7), backup := some (FileContent.corrupt 9) } :=
  load_nodes_failed_recovery_mutates ⟨0⟩
    ⟨some (FileContent.corrupt 7), some (FileContent.corrupt 9)⟩
    (FileContent.corrupt 7) (FileContent.corrupt 9) rfl rfl rfl rfl

/-- C4: when the dirty flag is set, save_nodes performs, in program order,
the deletion of an existing backup, the rename of an existing primary to
the backup, the write of the newly serialized tree, flush, fsync and
close, and then clears the dirty flag; consequently after a second dirty
checkpoint the backup content equals the primary content right after the
first checkpoint. -/
theorem save_nodes_rotation (s : LinkState) (h : s.nodes_changed = true) :
    (save_nodes s).2 =
      (match s.fs.backup with
        | some _ => [FileOp.removeBak]
        | none => []) ++
      (match s.fs.primary with
        | some _ => [FileOp.renameToBak]
        | none => []) ++
      [FileOp.write s.super_root, FileOp.flush, FileOp.fsync, FileOp.close] ∧
    (save_nodes s).1.nodes_changed = false ∧
    (save_nodes s).1.fs.primary = some (FileContent.parseable s.super_root) ∧
    (∀ t2 : NodeTree,
      ((save_nodes { (save_nodes s).1 with
          nodes_changed := true, super_root := t2 }).1).fs.backup
        = (save_nodes s).1.fs.primary) := by
  obtain ⟨dirty, root, p, bk⟩ := s
  simp only at h
  subst h
  cases p <;> cases bk <;> simp [save_nodes]

/-- Witness for C4: a dirty state with both files present; the second
checkpoint run with a different tree leaves the first checkpoint result as
the backup. -/
theorem save_nodes_rotation_witness :
    (save_nodes sampleDirtyBoth).2 =
      [FileOp.removeBak, FileOp.renameToBak, FileOp.write ⟨1⟩,
       FileOp.flush, FileOp.fsync, FileOp.close] ∧
    (save_nodes sampleDirtyBoth).1.nodes_changed = false ∧
    (save_nodes sampleDirtyBoth).1.fs.primary = some (FileContent.parseable ⟨1⟩) ∧
    ((save_nodes { (save_nodes sampleDirtyBoth).1 with
        nodes_changed := true, super_root := (⟨2⟩ : NodeTree) }).1).fs.backup =
      (save_nodes sampleDirtyBoth).1.fs.primary := by
  have h := save_nodes_rotation sampleDirtyBoth rfl
  exact ⟨h.1, h.2.1, h.2.2.1, h.2.2.2 ⟨2⟩⟩

/-- C5: with the dirty flag set, the first save_nodes call performs
exactly one write and clears the flag, and an immediately following second
call with no intervening mutation performs no file operation at all and
leaves the state untouched. -/
theorem save_nodes_second_call_noop (s : LinkState) (h : s.nodes_changed = true) :
    countWrites (save_nodes s).2 = 1 ∧
    (save_nodes s).1.nodes_changed = false ∧
    save_nodes ((save_nodes s).1) = ((save_nodes s).1, []) := by
  obtain ⟨dirty, root, p, bk⟩ := s
  simp only at h
  subst h
  cases p <;> cases bk <;> simp [save_nodes, countWrites]

/-- Witness for C5 at a concrete dirty state. -/
theorem save_nodes_second_call_noop_witness :
    countWrites (save_nodes sampleDirtyNoBak).2 = 1 ∧
    (save_nodes sampleDirtyNoBak).1.nodes_changed = false ∧
    save_nodes ((save_nodes sampleDirtyNoBak).1) = ((save_nodes sampleDirtyNoBak).1, []) :=
  save_nodes_second_call_noop sampleDirtyNoBak rfl

/-- C8, evaluated at the failing input: on a dirty state whose primary
write raises, save_timer propagates the exception (Except.error) with the
dirty flag still set, and never reaches the reactor.callLater line, so no
next tick is scheduled and nothing retries the save 5 seconds later. -/
theorem save_timer_failed_write_stops_timer :
    save_timer true sampleDirtyNoBak =
      Except.error
        { nodes_changed := true
          super_root := ⟨1⟩
          fs := { primary := none, backup := some (FileContent.parseable ⟨0⟩) } } ∧
    save_timer false sampleDirtyNoBak = Except.ok (save_nodes sampleDirtyNoBak, 5) := by
  exact ⟨rfl, rfl⟩

theorem bump_le (d : Nat) (hd : d ≤ 60) : bump d ≤ 60 := by
  unfold bump
  split <;> omega

theorem bump_eq_min (d : Nat) (hd : d ≤ 60) : bump d = min (d + 1) 60 := by
  unfold bump
  split <;> omega

theorem filterMap_if_all {α β : Type} (c : α → Bool) (f : α → β) (l : List α)
    (h : ∀ x ∈ l, c x = true) :
    l.filterMap (fun x => if c x then some (f x) else none) = l.map f := by
  induction l with
  | nil => rfl
  | cons a t ih =>
    have ha := h a (List.mem_cons_self a t)
    simp [List.filterMap_cons, ha, ih (fun x hx => h x (List.mem_cons_of_mem a hx))]

/-- The trace of a run of the connect loop made of failures of any kind
followed by one success: iteration k (0-based) sleeps min(d + k + 1, 60)
exactly when its failure is a falsy result, an exception iteration sleeps
nothing, and the run ends with the delay reset to 0. -/
theorem connect_schedule (fails : List AttemptOutcome)
    (hf : ∀ o ∈ fails, o ≠ AttemptOutcome.success) :
    ∀ d : Nat, d ≤ 60 →
      ∃ tr, connect d (fails ++ [AttemptOutcome.success]) = some (0, tr) ∧
        sleepsOf tr = (List.range fails.length).filterMap
          (fun k =>
            if sleepy (fails.getD k AttemptOutcome.success)
            then some (min (d + k + 1) 60) else none) := by
  induction fails with
  | nil =>
    intro d hd
    exact ⟨[ConnEvent.connected], rfl, rfl⟩
  | cons o rest ih =>
    intro d hd
    have hrest : ∀ x ∈ rest, x ≠ AttemptOutcome.success :=
      fun x hx => hf x (List.mem_cons_of_mem o hx)
    obtain ⟨tr, h1, h2⟩ := ih hrest (bump d) (bump_le d hd)
    have htail :
        ((fun k =>
          if sleepy ((o :: rest).getD k AttemptOutcome.success)
          then some (min (d + k + 1) 60) else none) ∘ Nat.succ) =
        (fun k =>
          if sleepy (rest.getD k AttemptOutcome.success)
          then some (min (bump d + k + 1) 60) else none) := by
      funext k
      have hm : min (d + (k + 1) + 1) 60 = min (bump d + k + 1) 60 := by
        unfold bump
        split <;> omega
      simp [Function.comp, List.getD_cons_succ, hm]
    cases o with
    | success => exact absurd rfl (hf AttemptOutcome.success (by simp))
    | handshakeFalse =>
      refine ⟨[ConnEvent.logWarning (bump d), ConnEvent.sleep (bump d)] ++ tr, ?_, ?_⟩
      · simp only [List.cons_append, connect, connectStep, List.append_eq]
        rw [h1]
        simp
      · simp only [List.cons_append, List.nil_append, sleepsOf,
          List.filterMap_cons] at h2 ⊢
        rw [h2, List.length_cons, List.range_succ_eq_map, List.filterMap_cons,
          List.filterMap_map, htail]
        simp [sleepy, List.getD_cons_zero, bump_eq_min d hd]
    | wsFalse =>
      refine ⟨[ConnEvent.logWarning (bump d), ConnEvent.sleep (bump d)] ++ tr, ?_, ?_⟩
      · simp only [List.cons_append, connect, connectStep, List.append_eq]
        rw [h1]
        simp
      · simp only [List.cons_append, List.nil_append, sleepsOf,
          List.filterMap_cons] at h2 ⊢
        rw [h2, List.length_cons, List.range_succ_eq_map, List.filterMap_cons,
          List.filterMap_map, htail]
        simp [sleepy, List.getD_cons_zero, bump_eq_min d hd]
    | raises =>
      refine ⟨[ConnEvent.logError] ++ tr, ?_, ?_⟩
      · simp only [List.cons_append, connect, connectStep, List.append_eq]
        rw [h1]
        simp
      · simp only [List.cons_append, List.nil_append, sleepsOf,
          List.filterMap_cons] at h2 ⊢
        rw [h2, List.length_cons, List.range_succ_eq_map, List.filterMap_cons,
          List.filterMap_map, htail]
        simp [sleepy, List.getD_cons_zero]

/-- C2: for any run of failed attempts (of any kind) followed by a
success, the sleep performed after failure number k+1 — that is, the delay
slept before the (k+2)-th attempt — is min(k + 1, 60) seconds whenever
that iteration sleeps at all (the falsy-result failures), and the delay
field is reset to 0 once the connection succeeds; when every failure is a
falsy result, the slept delays are exactly min(1,60), ..., min(N,60), the
last sleep before the successful (N+1)-th attempt being min(N, 60). -/
theorem connect_backoff (fails : List AttemptOutcome)
    (hf : ∀ o ∈ fails, o ≠ AttemptOutcome.success)
    (hn : 1 ≤ fails.length) :
    ∃ tr, connect 0 (fails ++ [AttemptOutcome.success]) = some (0, tr) ∧
      sleepsOf tr = (List.range fails.length).filterMap
        (fun k =>
          if sleepy (fails.getD k AttemptOutcome.success)
          then some (min (k + 1) 60) else none) ∧
      ((∀ o ∈ fails, sleepy o = true) →
        sleepsOf tr = (List.range fails.length).map (fun k => min (k + 1) 60) ∧
        (sleepsOf tr).getLast? = some (min fails.length 60)) := by
  obtain ⟨tr, h1, h2⟩ := connect_schedule fails hf 0 (by omega)
  have h2n : sleepsOf tr = (List.range fails.length).filterMap
      (fun k =>
        if sleepy (fails.getD k AttemptOutcome.success)
        then some (min (k + 1) 60) else none) := by
    rw [h2]
    congr 1
    funext k
    simp
  refine ⟨tr, h1, h2n, ?_⟩
  intro hs
  have hmap : sleepsOf tr =
      (List.range fails.length).map (fun k => min (k + 1) 60) := by
    rw [h2n]
    apply filterMap_if_all
    intro k hk
    have hk2 : k < fails.length := List.mem_range.mp hk
    rw [List.getD_eq_getElem fails AttemptOutcome.success hk2]
    exact hs _ (List.getElem_mem hk2)
  refine ⟨hmap, ?_⟩
  obtain ⟨m, hm⟩ : ∃ m, fails.length = m + 1 := ⟨fails.length - 1, by omega⟩
  rw [hmap, hm, List.range_succ, List.map_append, List.map_cons, List.map_nil,
    List.getLast?_concat]

/-- Witness for C2: two falsy failures then a success; the loop sleeps one
second, then two seconds, min 2 60 = 2 being the delay slept before the
third, successful, attempt, and the delay ends at 0. -/
theorem connect_backoff_witness :
    connect 0 ([AttemptOutcome.handshakeFalse, AttemptOutcome.wsFalse] ++
        [AttemptOutcome.success]) =
      some (0, [ConnEvent.logWarning 1, ConnEvent.sleep 1, ConnEvent.logWarning 2,
        ConnEvent.sleep 2, ConnEvent.connected]) ∧
    sleepsOf [ConnEvent.logWarning 1, ConnEvent.sleep 1, ConnEvent.logWarning 2,
        ConnEvent.sleep 2, ConnEvent.connected] = [1, 2] ∧
    (sleepsOf [ConnEvent.logWarning 1, ConnEvent.sleep 1, ConnEvent.logWarning 2,
        ConnEvent.sleep 2, ConnEvent.connected]).getLast? = some 2 := by
  obtain ⟨tr, h1, h2, h3⟩ := connect_backoff
    [AttemptOutcome.handshakeFalse, AttemptOutcome.wsFalse] (by decide) (by decide)
  obtain ⟨h4, h5⟩ := h3 (by decide)
  have hc : connect 0 ([AttemptOutcome.handshakeFalse, AttemptOutcome.wsFalse] ++
      [AttemptOutcome.success]) =
      some (0, [ConnEvent.logWarning 1, ConnEvent.sleep 1, ConnEvent.logWarning 2,
        ConnEvent.sleep 2, ConnEvent.connected]) := rfl
  rw [h1] at hc
  simp only [Option.some.injEq, Prod.mk.injEq, true_and] at hc
  rw [hc] at h1 h4 h5
  exact ⟨h1, h4, h5⟩

/-- C3, evaluated at the failing input: an attempt that raises an
exception is caught and logged, but the loop retries immediately, with no
sleep event between the failed attempt and the next one — the sleep
statement sits inside the try block after the warning log, so the
exception path skips it. -/
theorem connect_exception_retries_without_sleep :
    connect 0 [AttemptOutcome.raises, AttemptOutcome.success] =
      some (0, [ConnEvent.logError, ConnEvent.connected]) ∧
    sleepsOf [ConnEvent.logError, ConnEvent.connected] = [] := by
  exact ⟨rfl, rfl⟩

/-- C6: subscribe then unsubscribe of the same id leaves the node's
subscriber set empty (starting from an empty set) and removes the id from
the subscriptions dict, and symmetrically for open_stream followed by
close_stream; unsubscribe or close_stream on an id absent from the mapping
does not raise (both are total), emits exactly the debug-level log line,
and leaves the whole state unchanged. -/
theorem registry_lifecycle (n s r : Nat) (st : SubState) (stt : StreamState)
    (h1 : getList n st.subscribers = [])
    (h2 : getList n stt.nodeStreams = []) :
    getList n ((unsubscribe s (subscribe n s st)).1).subscribers = [] ∧
    dictLookup s ((unsubscribe s (subscribe n s st)).1).subscriptions = none ∧
    getList n ((close_stream r (open_stream n r stt)).1).nodeStreams = [] ∧
    dictLookup r ((close_stream r (open_stream n r stt)).1).streams = none ∧
    (∀ s2, dictLookup s2 st.subscriptions = none →
      unsubscribe s2 st = (st, [LogMsg.debugUnknownSid s2])) ∧
    (∀ r2, dictLookup r2 stt.streams = none →
      close_stream r2 stt = (stt, [LogMsg.debugUnknownRid r2])) := by
  have hsub : dictLookup s (subscribe n s st).subscriptions = some n := by
    simp [subscribe, dictLookup_insert_self]
  have hstr : dictLookup r (open_stream n r stt).streams = some n := by
    simp [open_stream, dictLookup_insert_self]
  refine ⟨?_, ?_, ?_, ?_, ?_, ?_⟩
  · simp only [unsubscribe, hsub]
    rw [getList_removeSubscriber_self]
    have hs : getList n (subscribe n s st).subscribers = [s] := by
      simp [subscribe, addSubscriber, h1, getList_insert_self]
    rw [hs]
    simp
  · simp only [unsubscribe, hsub]
    exact dictLookup_erase_self s _
  · simp only [close_stream, hstr]
    rw [getList_insert_self]
    have hr : getList n (open_stream n r stt).nodeStreams = [r] := by
      simp [open_stream, getList_insert_self, h2]
    rw [hr]
    simp [listRemoveFirst]
  · simp only [close_stream, hstr]
    exact dictLookup_erase_self r _
  · intro s2 hs2
    simp [unsubscribe, hs2]
  · intro r2 hr2
    simp [close_stream, hr2]

/-- Witness for C6 on fresh registries: node 1, sid 2, rid 3, and the
unknown ids 5 and 6. -/
theorem registry_lifecycle_witness :
    getList 1 ((unsubscribe 2 (subscribe 1 2 ⟨[], []⟩)).1).subscribers = [] ∧
    dictLookup 2 ((unsubscribe 2 (subscribe 1 2 ⟨[], []⟩)).1).subscriptions = none ∧
    getList 1 ((close_stream 3 (open_stream 1 3 ⟨[], []⟩)).1).nodeStreams = [] ∧
    dictLookup 3 ((close_stream 3 (open_stream 1 3 ⟨[], []⟩)).1).streams = none ∧
    unsubscribe 5 (⟨[], []⟩ : SubState) = (⟨[], []⟩, [LogMsg.debugUnknownSid 5]) ∧
    close_stream 6 (⟨[], []⟩ : StreamState) = (⟨[], []⟩, [LogMsg.debugUnknownRid 6]) := by
  have h := registry_lifecycle 1 2 3 ⟨[], []⟩ ⟨[], []⟩ rfl rfl
  exact ⟨h.1, h.2.1, h.2.2.1, h.2.2.2.1, h.2.2.2.2.1 5 rfl, h.2.2.2.2.2 6 rfl⟩

/-- C7: reopening an id that is already mapped overwrites the mapping to
the new node, last-writer-wins, without touching the previously mapped
node: its subscriber set, respectively its stream list, is unchanged by
the overwrite. -/
theorem open_overwrite_last_writer_wins (st : SubState) (stt : StreamState)
    (s r n1 n2 : Nat)
    (h1 : dictLookup s st.subscriptions = some n1)
    (h2 : dictLookup r stt.streams = some n1)
    (hne : n1 ≠ n2) :
    dictLookup s (subscribe n2 s st).subscriptions = some n2 ∧
    getList n1 (subscribe n2 s st).subscribers = getList n1 st.subscribers ∧
    dictLookup r (open_stream n2 r stt).streams = some n2 ∧
    getList n1 (open_stream n2 r stt).nodeStreams = getList n1 stt.nodeStreams := by
  refine ⟨?_, ?_, ?_, ?_⟩
  · simp [subscribe, dictLookup_insert_self]
  · simp only [subscribe]
    exact getList_addSubscriber_other n2 n1 s st.subscribers hne
  · simp [open_stream, dictLookup_insert_self]
  · simp only [open_stream]
    exact getList_insert_other n2 n1 _ stt.nodeStreams hne

/-- Witness for C7: sid 2 and rid 3 both mapped to node 10, reopened
against node 11. -/
theorem open_overwrite_last_writer_wins_witness :
    dictLookup 2 (subscribe 11 2 ⟨[(2, 10)], [(10, [2])]⟩).subscriptions = some 11 ∧
    getList 10 (subscribe 11 2 ⟨[(2, 10)], [(10, [2])]⟩).subscribers =
      getList 10 (⟨[(2, 10)], [(10, [2])]⟩ : SubState).subscribers ∧
    dictLookup 3 (open_stream 11 3 ⟨[(3, 10)], [(10, [3])]⟩).streams = some 11 ∧
    getList 10 (open_stream 11 3 ⟨[(3, 10)], [(10, [3])]⟩).nodeStreams =
      getList 10 (⟨[(3, 10)], [(10, [3])]⟩ : StreamState).nodeStreams :=
  open_overwrite_last_writer_wins ⟨[(2, 10)], [(10, [2])]⟩ ⟨[(3, 10)], [(10, [3])]⟩
    2 3 10 11 rfl rfl (by decide)

/-- C9: subscribing the same id first on node n1 and then on node n2 and
finally unsubscribing it removes the id only from n2 and from the mapping:
the id stays in the subscriber set of n1 while no mapping entry references
it any more, so the set-membership/mapping-key invariant is broken. -/
theorem duplicate_subscribe_orphans_sid (n1 n2 s : Nat) (st : SubState)
    (hne : n1 ≠ n2) :
    s ∈ getList n1 ((unsubscribe s (subscribe n2 s (subscribe n1 s st))).1).subscribers ∧
    s ∉ getList n2 ((unsubscribe s (subscribe n2 s (subscribe n1 s st))).1).subscribers ∧
    dictLookup s ((unsubscribe s (subscribe n2 s (subscribe n1 s st))).1).subscriptions
      = none ∧
    ¬ subsInvariant ((unsubscribe s (subscribe n2 s (subscribe n1 s st))).1) := by
  have hlook :
      dictLookup s (subscribe n2 s (subscribe n1 s st)).subscriptions = some n2 := by
    simp [subscribe, dictLookup_insert_self]
  have hmem :
      s ∈ getList n1 ((unsubscribe s (subscribe n2 s (subscribe n1 s st))).1).subscribers := by
    simp only [unsubscribe, hlook]
    rw [getList_removeSubscriber_other n2 n1 s _ hne]
    simp only [subscribe]
    rw [getList_addSubscriber_other n2 n1 s _ hne]
    exact mem_getList_addSubscriber_self n1 s st.subscribers
  have hnone :
      dictLookup s ((unsubscribe s (subscribe n2 s (subscribe n1 s st))).1).subscriptions
        = none := by
    simp only [unsubscribe, hlook]
    exact dictLookup_erase_self s _
  refine ⟨hmem, ?_, hnone, ?_⟩
  · simp only [unsubscribe, hlook]
    rw [getList_removeSubscriber_self]
    simp
  · intro hinv
    exact (hinv n1 s hmem) hnone

/-- Witness for C9: nodes 1 and 2, sid 7, starting from empty
registries. -/
theorem duplicate_subscribe_orphans_sid_witness :
    7 ∈ getList 1 ((unsubscribe 7 (subscribe 2 7 (subscribe 1 7 ⟨[], []⟩))).1).subscribers ∧
    7 ∉ getList 2 ((unsubscribe 7 (subscribe 2 7 (subscribe 1 7 ⟨[], []⟩))).1).subscribers ∧
    dictLookup 7 ((unsubscribe 7 (subscribe 2 7 (subscribe 1 7 ⟨[], []⟩))).1).subscriptions
      = none ∧
    ¬ subsInvariant ((unsubscribe 7 (subscribe 2 7 (subscribe 1 7 ⟨[], []⟩))).1) :=
  duplicate_subscribe_orphans_sid 1 2 7 ⟨[], []⟩ (by decide)

end DSLink
